import Mathlib

/-!
Shallow embedding of the LogisticPortal tracking-event pipeline.

Sources embedded (JavaScript):
- src/backend/models/Shipment.js: classes Shipment and TrackingEvent
  (statusMapping, updateShipmentStatus, checkDuplicate, createFromExternal, toJSON)
- src/backend/services/TrackingService.js: createTrackingEvent,
  getShipmentsForUpdate, sendTrackingNotifications
- src/backend/services/RealTimeTrackingService.js: handleShipmentSubscription,
  broadcastTrackingEvent, processPeriodicUpdates

Modelling conventions:
- timestamps are Int seconds since the epoch (the SQL compares epochs);
- opaque ids (shipment, customer, socket clients) are Nat;
- JS undefined and null become Option.none; a JS numeric field used in a
  truthiness test is Option Rat, and truthiness of a present number is
  being nonzero (NaN is not modelled);
- the relational tables are association lists in a DBState record; an SQL
  UPDATE ... WHERE id = x maps every row whose id matches, and a point
  SELECT takes the first matching row, as List.find? does;
- a thrown JS Error that callers treat as control flow is an explicit
  outcome constructor.
-/

namespace LogisticPortal

/-- Status mapping table from TrackingEvent.updateShipmentStatus
(models/Shipment.js, the statusMapping object literal); codes outside the
table map to none (in JS the lookup yields undefined). -/
def statusMapping : String → Option String
  | "SHIPMENT_CREATED" => some "CREATED"
  | "CARGO_COLLECTED" => some "BOOKED"
  | "MANIFESTED" => some "MANIFESTED"
  | "FLIGHT_DEPARTED" => some "DEPARTED"
  | "IN_TRANSIT" => some "IN_TRANSIT"
  | "FLIGHT_ARRIVED" => some "ARRIVED"
  | "CUSTOMS_CLEARANCE" => some "CUSTOMS_CLEARANCE"
  | "CUSTOMS_CLEARED" => some "CUSTOMS_CLEARANCE"
  | "OUT_FOR_DELIVERY" => some "OUT_FOR_DELIVERY"
  | "DELIVERED" => some "DELIVERED"
  | _ => none

/-- Row of the tracking_events table (TrackingEvent constructor fields that
the embedded operations read). created_at is modelled as the insertion
sequence number. -/
structure TrackingEvent where
  event_id : Nat
  shipment_id : Nat
  event_code : String
  event_category : String
  event_location : Option String
  event_datetime : Int
  is_milestone : Bool
  is_exception : Bool
  is_critical : Bool
  external_event_id : Option String
  longitude : Option Rat
  latitude : Option Rat
  temperature_celsius : Option Rat
  humidity_percent : Option Rat
  created_at : Nat
  deriving DecidableEq, Repr

/-- Row of the shipments table (fields read or written by the embedded
operations). current_status is Option String because
updateShipmentStatus can write the undefined fallback for unmapped codes. -/
structure Shipment where
  shipment_id : Nat
  awb_number : String
  customer_id : Nat
  current_status : Option String
  current_location : Option String
  delivery_date : Option Int
  tracking_enabled : Bool
  tracking_frequency_minutes : Int
  last_tracked_at : Option Int
  deriving DecidableEq, Repr

/-- Caller-supplied payload of a canonical event (the eventData argument of
TrackingService.createTrackingEvent and the externalData argument of
TrackingEvent.createFromExternal). -/
structure EventData where
  event_code : String
  event_category : Option String
  event_location : Option String
  event_datetime : Int
  is_milestone : Bool
  is_exception : Bool
  is_critical : Bool
  external_event_id : Option String
  longitude : Option Rat
  latitude : Option Rat
  temperature_celsius : Option Rat
  humidity_percent : Option Rat
  deriving DecidableEq, Repr

/-- Database state: the shipments and tracking_events tables plus the
insertion sequence used for created_at ordering. -/
structure DBState where
  shipments : List Shipment
  events : List TrackingEvent
  nextSeq : Nat
  deriving DecidableEq, Repr

/-- SELECT of a shipment row by id (Shipment.findById): first row whose
shipment_id matches. -/
def findById (db : DBState) (sid : Nat) : Option Shipment :=
  db.shipments.find? (fun s => s.shipment_id == sid)

/-- SELECT of a shipment row by AWB number (Shipment.findByAwb). -/
def findByAwb (db : DBState) (awb : String) : Option Shipment :=
  db.shipments.find? (fun s => s.awb_number == awb)

/-- Effect of TrackingEvent.updateShipmentStatus on one shipment row
(models/Shipment.js). Fires only when the event is a milestone or has
category STATUS_UPDATE; it then overwrites current_status with the status
mapping of THIS event's code (the JS fallback this.current_status is
undefined on a TrackingEvent, hence none for unmapped codes), overwrites
current_location, sets last_tracked_at to the event's datetime, and for a
DELIVERED code also sets delivery_date. -/
def updateShipmentStatus (e : TrackingEvent) (s : Shipment) : Shipment :=
  if e.is_milestone || e.event_category == "STATUS_UPDATE" then
    let s' : Shipment :=
      { s with
        current_status := statusMapping e.event_code
        current_location := e.event_location
        last_tracked_at := some e.event_datetime }
    if e.event_code == "DELIVERED" then
      { s' with delivery_date := some e.event_datetime }
    else s'
  else s

/-- Duplicate check of TrackingEvent.checkDuplicate (models/Shipment.js):
a stored event counts when it has the same shipment, the same event code
and an event_datetime within 300 seconds; the external-id equality clause
is added only when the CANDIDATE carries an external id (the JS code pushes
the condition only under if externalEventId). -/
def checkDuplicate (events : List TrackingEvent) (shipmentId : Nat)
    (eventCode : String) (eventDatetime : Int)
    (externalEventId : Option String) : Bool :=
  events.any (fun ev =>
    ev.shipment_id == shipmentId &&
    ev.event_code == eventCode &&
    (ev.event_datetime - eventDatetime).natAbs < 300 &&
    (match externalEventId with
     | none => true
     | some x => ev.external_event_id == some x))

/-- Outcome of one Apply through the ingestion pipeline. The duplicate
constructor stands for the thrown Duplicate-tracking-event error, which the
callers in the repository absorb as a non-fatal outcome; notFound stands
for the thrown Shipment-not-found error. -/
inductive ApplyOutcome where
  | created (e : TrackingEvent)
  | duplicate
  | notFound
  deriving DecidableEq, Repr

/-- Materialise the inserted tracking_events row from the caller data
(field defaulting as in the JS constructors: category defaults to
STATUS_UPDATE, flags default to falsy). -/
def mkTrackingEvent (db : DBState) (sid : Nat) (d : EventData) : TrackingEvent :=
  { event_id := db.nextSeq
    shipment_id := sid
    event_code := d.event_code
    event_category := d.event_category.getD "STATUS_UPDATE"
    event_location := d.event_location
    event_datetime := d.event_datetime
    is_milestone := d.is_milestone
    is_exception := d.is_exception
    is_critical := d.is_critical
    external_event_id := d.external_event_id
    longitude := d.longitude
    latitude := d.latitude
    temperature_celsius := d.temperature_celsius
    humidity_percent := d.humidity_percent
    created_at := db.nextSeq }

/-- UPDATE shipments SET ... WHERE shipment_id = sid, applying u to every
matching row. -/
def updateWhereId (rows : List Shipment) (sid : Nat) (u : Shipment → Shipment) :
    List Shipment :=
  rows.map (fun s => if s.shipment_id == sid then u s else s)

/-- One Apply of a canonical event: TrackingService.createTrackingEvent,
whose load / dedup / insert / derive sequence is also that of
TrackingEvent.createFromExternal. Loads the shipment (absent: throw),
runs checkDuplicate (match: throw the duplicate error, no write), else
inserts the tracking_events row; TrackingEvent.create then invokes
updateShipmentStatus on the shipment row. -/
def createTrackingEvent (db : DBState) (sid : Nat) (d : EventData) :
    ApplyOutcome × DBState :=
  match findById db sid with
  | none => (ApplyOutcome.notFound, db)
  | some _ =>
    if checkDuplicate db.events sid d.event_code d.event_datetime
        d.external_event_id then
      (ApplyOutcome.duplicate, db)
    else
      let e := mkTrackingEvent db sid d
      (ApplyOutcome.created e,
       { shipments := updateWhereId db.shipments sid (updateShipmentStatus e)
         events := db.events ++ [e]
         nextSeq := db.nextSeq + 1 })

/-- Sequential Applies of a list of (shipment id, event data) pairs. -/
def applyAll (db : DBState) (l : List (Nat × EventData)) : DBState :=
  l.foldl (fun acc p => (createTrackingEvent acc p.1 p.2).2) db

/-- WHERE clause of TrackingService.getShipmentsForUpdate. The SQL is
tracking_enabled = 1 AND current_status NOT IN ('DELIVERED','CANCELLED')
AND (last_tracked_at IS NULL OR last_tracked_at < SYSDATE - freq/1440);
a NULL current_status makes NOT IN unknown, so such a row is filtered out,
and the time comparison is strict (freq/1440 days equals freq minutes,
modelled in seconds). -/
def dueForUpdate (now : Int) (s : Shipment) : Bool :=
  s.tracking_enabled &&
  (match s.current_status with
   | none => false
   | some st => !(st == "DELIVERED") && !(st == "CANCELLED")) &&
  (match s.last_tracked_at with
   | none => true
   | some t => decide (t < now - s.tracking_frequency_minutes * 60))

/-- Comparator for ORDER BY last_tracked_at ASC NULLS FIRST. -/
def lastTrackedLe (a b : Option Int) : Bool :=
  match a, b with
  | none, _ => true
  | some _, none => false
  | some x, some y => decide (x ≤ y)

/-- TrackingService.getShipmentsForUpdate: the due rows ordered by
last_tracked_at ascending with NULLS FIRST, capped by FETCH FIRST 100. -/
def getShipmentsForUpdate (now : Int) (db : DBState) : List Shipment :=
  (((db.shipments.filter (dueForUpdate now)).mergeSort
      (fun a b => lastTrackedLe a.last_tracked_at b.last_tracked_at)).take 100)

/-- Shipment.updateTrackingConfig: writes only tracking_enabled and
tracking_frequency_minutes. The caller in updateTrackingFromExternal also
passes last_tracked_at, but the method destructures only the two fields, so
last_tracked_at is NOT written here. -/
def updateTrackingConfig (db : DBState) (sid : Nat) (enabled : Bool)
    (freq : Int) : DBState :=
  { db with
    shipments := updateWhereId db.shipments sid
      (fun s => { s with tracking_enabled := enabled
                         tracking_frequency_minutes := freq }) }

/-- TrackingService.updateTrackingFromExternal for one shipment: load by
AWB (absent or tracking-disabled: throw, no write), Apply every fetched
event through createFromExternal (duplicates absorbed with a warning), then
call updateTrackingConfig with the shipment's own values. fetched stands
for the list the external adapter returned. -/
def updateTrackingFromExternal (db : DBState) (awb : String)
    (fetched : List EventData) : DBState :=
  match findByAwb db awb with
  | none => db
  | some sh =>
    if !sh.tracking_enabled then db
    else
      let db1 := fetched.foldl
        (fun acc d => (createTrackingEvent acc sh.shipment_id d).2) db
      updateTrackingConfig db1 sh.shipment_id sh.tracking_enabled
        sh.tracking_frequency_minutes

/-- TrackingService.processAutomaticUpdates: one scheduler tick. Selects
the due shipments, then refreshes each from the external source (fetch
gives the adapter payload per AWB). -/
def processAutomaticUpdates (now : Int) (db : DBState)
    (fetch : String → List EventData) : DBState :=
  (getShipmentsForUpdate now db).foldl
    (fun acc row => updateTrackingFromExternal acc row.awb_number
      (fetch row.awb_number)) db

/-- Socket.IO room keys. The string room name shipment:X is modelled as
RoomKey.shipment (some x); subscribing with neither a shipment id nor an
AWB joins the JS room shipment:undefined, modelled as
RoomKey.shipment none; customer:C is RoomKey.customer c. -/
inductive RoomKey where
  | shipment (osid : Option Nat)
  | customer (cid : Nat)
  deriving DecidableEq, Repr

/-- Room membership table: room key with the list of joined client ids. -/
abbrev Rooms : Type := List (RoomKey × List Nat)

/-- Clients joined to a room. -/
def roomClients (rooms : Rooms) (k : RoomKey) : List Nat :=
  ((List.filter (fun p => p.1 = k) rooms).map (fun p => p.2)).flatten

/-- socket.join: add the client to the room, creating it when absent
(idempotent, as socket.io rooms are sets). -/
def joinRoom (rooms : Rooms) (k : RoomKey) (c : Nat) : Rooms :=
  if List.any rooms (fun p => p.1 = k) then
    List.map (fun p =>
      if p.1 = k then (p.1, if p.2.contains c then p.2 else p.2 ++ [c]) else p)
      rooms
  else List.concat rooms (k, [c])

/-- Connection metadata the handlers read (connectedClients entry). -/
structure ClientInfo where
  authenticated : Bool
  customerId : Option Nat
  deriving DecidableEq, Repr

/-- Payload of the subscribe_shipment message. -/
structure SubscribeData where
  shipmentId : Option Nat
  awbNumber : Option String
  deriving DecidableEq, Repr

/-- RealTimeTrackingService.handleShipmentSubscription. The AWB branch runs
only when an AWB is given and no shipment id is (the JS condition
awbNumber && !shipmentId); the customer-access check lives only inside
that branch. Otherwise the client joins the room keyed by the raw
shipmentId with no access check. Returns the new rooms and the joined id. -/
def handleShipmentSubscription (db : DBState) (rooms : Rooms)
    (clientId : Nat) (info : ClientInfo) (d : SubscribeData) :
    Except String (Rooms × Option Nat) :=
  if !info.authenticated then Except.error "Authentication required"
  else
    match d.awbNumber, d.shipmentId with
    | some awb, none =>
      match findByAwb db awb with
      | none => Except.error "Shipment not found"
      | some sh =>
        match info.customerId with
        | some c =>
          if sh.customer_id ≠ c then Except.error "Access denied"
          else Except.ok
            (joinRoom rooms (RoomKey.shipment (some sh.shipment_id)) clientId,
             some sh.shipment_id)
        | none => Except.ok
            (joinRoom rooms (RoomKey.shipment (some sh.shipment_id)) clientId,
             some sh.shipment_id)
    | _, _ => Except.ok
        (joinRoom rooms (RoomKey.shipment d.shipmentId) clientId, d.shipmentId)

/-- Kinds of outbound push messages emitted by broadcastTrackingEvent. -/
inductive MsgKind where
  | tracking_event
  | customer_tracking_update
  | critical_update
  deriving DecidableEq, Repr

/-- RealTimeTrackingService.broadcastTrackingEvent as the multiset of
(client, message kind) deliveries: tracking_event to the shipment room,
customer_tracking_update to the owning customer's room, and, when the event
is critical, an exception or a milestone, critical_update to the shipment
room only. -/
def broadcastTrackingEvent (rooms : Rooms) (e : TrackingEvent)
    (sh : Shipment) : List (Nat × MsgKind) :=
  (roomClients rooms (RoomKey.shipment (some e.shipment_id))).map
    (fun c => (c, MsgKind.tracking_event))
  ++ (roomClients rooms (RoomKey.customer sh.customer_id)).map
    (fun c => (c, MsgKind.customer_tracking_update))
  ++ (if e.is_critical || e.is_exception || e.is_milestone then
        (roomClients rooms (RoomKey.shipment (some e.shipment_id))).map
          (fun c => (c, MsgKind.critical_update))
      else [])

/-- Selection step of RealTimeTrackingService.processPeriodicUpdates: the
shipment ids of nonempty shipment rooms that survive the skip test, which
drops a missing shipment, a tracking-disabled one, or one whose
current_status is DELIVERED (CANCELLED is NOT skipped). The survivors
proceed to updateTrackingFromExternal. -/
def processPeriodicUpdates (rooms : Rooms) (db : DBState) : List Nat :=
  ((List.filter
      (fun p => (match p.1 with
                 | RoomKey.shipment _ => true
                 | RoomKey.customer _ => false) && !p.2.isEmpty) rooms).filterMap
    (fun p => match p.1 with
              | RoomKey.shipment osid => osid
              | RoomKey.customer _ => none)).filter
    (fun sid =>
      match findById db sid with
      | none => false
      | some s => s.tracking_enabled && !(s.current_status == some "DELIVERED"))

/-- Row of the tracking_subscriptions table (fields the notification
dispatch reads). -/
structure TrackingSubscription where
  subscription_id : Nat
  shipment_id : Nat
  is_active : Bool
  milestone_notifications : Bool
  exception_notifications : Bool
  location_updates : Bool
  all_events : Bool
  deriving DecidableEq, Repr

/-- Subscription filter of TrackingService.sendTrackingNotifications: the
SQL keeps active rows of the shipment satisfying
(milestone_notifications AND is_milestone) OR (exception_notifications AND
is_exception) OR all_events. No clause reads location_updates. -/
def sendTrackingNotifications (subs : List TrackingSubscription)
    (e : TrackingEvent) : List TrackingSubscription :=
  subs.filter (fun sub =>
    sub.shipment_id == e.shipment_id && sub.is_active &&
    ((sub.milestone_notifications && e.is_milestone) ||
     (sub.exception_notifications && e.is_exception) ||
     sub.all_events))

/-- Notification dispatch for one created event: TrackingService.
createTrackingEvent calls sendTrackingNotifications only when the event is
a milestone, an exception or critical; otherwise nothing is dispatched. -/
def notificationsDispatched (subs : List TrackingSubscription)
    (e : TrackingEvent) : List TrackingSubscription :=
  if e.is_milestone || e.is_exception || e.is_critical then
    sendTrackingNotifications subs e
  else []

/-- JS truthiness of an optional numeric field: absent (undefined or null)
and zero are falsy. -/
def numTruthy : Option Rat → Bool
  | none => false
  | some x => !(x == 0)

/-- Guard of the coordinates block in TrackingEvent.toJSON: the JS test is
if (this.longitude && this.latitude). -/
def coordinatesIncluded (e : TrackingEvent) : Bool :=
  numTruthy e.longitude && numTruthy e.latitude

/-- Guard of the environmental_data block in TrackingEvent.toJSON: the JS
test is if (this.temperature_celsius || this.humidity_percent). -/
def environmentalDataIncluded (e : TrackingEvent) : Bool :=
  numTruthy e.temperature_celsius || numTruthy e.humidity_percent

/-- Modelled from the spec: the duplicate predicate as the spec sentence
words it, for comparison with checkDuplicate (claim C3): same shipment,
same event code, event_datetime within 300 s, and either both sides carry
the same external id or neither side carries one. -/
def specDuplicate (events : List TrackingEvent) (shipmentId : Nat)
    (eventCode : String) (eventDatetime : Int)
    (externalEventId : Option String) : Bool :=
  events.any (fun ev =>
    ev.shipment_id == shipmentId &&
    ev.event_code == eventCode &&
    (ev.event_datetime - eventDatetime).natAbs < 300 &&
    ((externalEventId.isSome && ev.external_event_id == externalEventId) ||
     (externalEventId == none && ev.external_event_id == none)))

/-- Modelled from the spec: the subscription-match predicate as the spec
sentence words it, for comparison with the dispatch filter (claim C6):
all_events, or milestone and event milestone, or exception and event
exception, or location_updates and category LOCATION_UPDATE. -/
def specSubscriptionMatches (sub : TrackingSubscription)
    (e : TrackingEvent) : Bool :=
  sub.all_events ||
  (sub.milestone_notifications && e.is_milestone) ||
  (sub.exception_notifications && e.is_exception) ||
  (sub.location_updates && (e.event_category == "LOCATION_UPDATE"))

/-- Modelled from the spec: the poll-scheduler due predicate as the spec
sentence words it, for comparison with dueForUpdate (claim C8):
tracking_enabled, status outside the terminal pair, last_tracked_at null
or overdue by AT LEAST tracking_frequency_minutes. -/
def specDueForUpdate (now : Int) (s : Shipment) : Bool :=
  s.tracking_enabled &&
  !(s.current_status == some "DELIVERED") &&
  !(s.current_status == some "CANCELLED") &&
  (match s.last_tracked_at with
   | none => true
   | some t => decide (now - t ≥ s.tracking_frequency_minutes * 60))

/-- Key pair preserved by every shipment-row update: the immutable
identity columns shipment_id and awb_number. -/
def idAwb (s : Shipment) : Nat × String :=
  (s.shipment_id, s.awb_number)

/-- Fixture: a live shipment owned by customer 1 (seed scenario S1). -/
def wShip : Shipment :=
  { shipment_id := 1
    awb_number := "125-12345678"
    customer_id := 1
    current_status := some "BOOKED"
    current_location := some "SIN"
    delivery_date := none
    tracking_enabled := true
    tracking_frequency_minutes := 30
    last_tracked_at := none }

/-- Fixture: database holding only wShip and no events. -/
def wDb0 : DBState := ⟨[wShip], [], 0⟩

/-- Fixture: milestone event data with the given code, time and place. -/
def wData (code : String) (t : Int) (loc : String) : EventData :=
  { event_code := code
    event_category := none
    event_location := some loc
    event_datetime := t
    is_milestone := true
    is_exception := false
    is_critical := false
    external_event_id := none
    longitude := none
    latitude := none
    temperature_celsius := none
    humidity_percent := none }

/-- Fixture: persisted CARGO_COLLECTED event at t = 1000 with no external
id (seed scenario S1 as stored). -/
def wEv1 : TrackingEvent := mkTrackingEvent wDb0 1 (wData "CARGO_COLLECTED" 1000 "SIN")

/-- Fixture: the same stored event but carrying an external id. -/
def wEvX : TrackingEvent := { wEv1 with external_event_id := some "X" }

/-- Fixture: database holding wShip and the stored wEv1. -/
def wDb2 : DBState := ⟨[wShip], [wEv1], 1⟩

/-- Fixture: candidate duplicate 299 s after wEv1 with no external id
(seed scenario S2). -/
def wDup : EventData := wData "CARGO_COLLECTED" 1299 "SIN"

/-- Fixture: wShip already CANCELLED. -/
def wShipCancelled : Shipment := { wShip with current_status := some "CANCELLED" }

/-- Fixture: wShip already DELIVERED. -/
def wShipDelivered : Shipment := { wShip with current_status := some "DELIVERED" }

/-- Fixture: a second, due shipment with its own id and AWB. -/
def wShipDue : Shipment :=
  { wShip with shipment_id := 2, awb_number := "125-00000002" }

/-- Fixture: shipment polled exactly tracking_frequency_minutes ago at
now = 1000000 (the overdue boundary). -/
def wShipBoundary : Shipment :=
  { wShip with last_tracked_at := some (1000000 - 30 * 60) }

/-- Fixture: subscription asking only for location updates. -/
def wSubLoc : TrackingSubscription :=
  { subscription_id := 9
    shipment_id := 1
    is_active := true
    milestone_notifications := false
    exception_notifications := false
    location_updates := true
    all_events := false }

/-- Fixture: a LOCATION_UPDATE event that is neither milestone, exception
nor critical. -/
def wEvLoc : TrackingEvent :=
  { wEv1 with event_category := "LOCATION_UPDATE", is_milestone := false }

/-- Fixture: a milestone FLIGHT_ARRIVED event on shipment 1 (seed
scenario S4). -/
def wEvArr : TrackingEvent := mkTrackingEvent wDb0 1 (wData "FLIGHT_ARRIVED" 500 "HKG")

/-- Fixture: database holding a DELIVERED shipment (id 1) and a due
shipment (id 2), with distinct ids and AWBs. -/
def wDb4 : DBState := ⟨[wShipDelivered, wShipDue], [], 0⟩


/-- updateShipmentStatus never touches the identity columns. -/
theorem idAwb_updateShipmentStatus (e : TrackingEvent) (s : Shipment) :
    idAwb (updateShipmentStatus e s) = idAwb s := by
  unfold updateShipmentStatus
  split
  · split <;> rfl
  · rfl

/-- updateShipmentStatus never touches shipment_id. -/
theorem shipment_id_updateShipmentStatus (e : TrackingEvent) (s : Shipment) :
    (updateShipmentStatus e s).shipment_id = s.shipment_id :=
  congrArg Prod.fst (idAwb_updateShipmentStatus e s)

/-- Point lookup after a keyed UPDATE: the found row is the old found row
with the update applied when its key matches. -/
theorem find?_updateWhereId (rows : List Shipment) (sid' : Nat)
    (u : Shipment → Shipment) (hu : ∀ s, (u s).shipment_id = s.shipment_id)
    (sid : Nat) :
    (updateWhereId rows sid' u).find? (fun s => s.shipment_id == sid) =
    (rows.find? (fun s => s.shipment_id == sid)).map
      (fun s => if s.shipment_id == sid' then u s else s) := by
  induction rows with
  | nil => rfl
  | cons h t ih =>
    have hid : (if h.shipment_id == sid' then u h else h).shipment_id
        = h.shipment_id := by
      split
      · exact hu h
      · rfl
    show List.find? (fun s => s.shipment_id == sid)
        ((if h.shipment_id == sid' then u h else h) :: updateWhereId t sid' u)
      = _
    by_cases hp : (h.shipment_id == sid) = true
    · rw [@List.find?_cons_of_pos _ (fun s : Shipment => s.shipment_id == sid)
          (if h.shipment_id == sid' then u h else h) (updateWhereId t sid' u)
          (by show ((if h.shipment_id == sid' then u h else h).shipment_id == sid) = true
              rw [hid]; exact hp),
        @List.find?_cons_of_pos _ (fun s : Shipment => s.shipment_id == sid) h t hp]
      rfl
    · rw [@List.find?_cons_of_neg _ (fun s : Shipment => s.shipment_id == sid)
          (if h.shipment_id == sid' then u h else h) (updateWhereId t sid' u)
          (by show ¬ ((if h.shipment_id == sid' then u h else h).shipment_id == sid) = true
              rw [hid]; exact hp),
        @List.find?_cons_of_neg _ (fun s : Shipment => s.shipment_id == sid) h t hp]
      exact ih

/-- A keyed UPDATE for a different key leaves the point-lookup result of
this key unchanged. -/
theorem find?_updateWhereId_ne (rows : List Shipment) (sid' : Nat)
    (u : Shipment → Shipment) (hu : ∀ s, (u s).shipment_id = s.shipment_id)
    (sid : Nat) (hne : sid' ≠ sid) :
    (updateWhereId rows sid' u).find? (fun s => s.shipment_id == sid) =
    rows.find? (fun s => s.shipment_id == sid) := by
  rw [find?_updateWhereId rows sid' u hu sid]
  cases hr : rows.find? (fun s => s.shipment_id == sid) with
  | none => rfl
  | some r =>
    have h1 := List.find?_some hr
    have hrid : r.shipment_id = sid := by simpa using h1
    have hcond : (r.shipment_id == sid') = false := by
      rw [hrid]
      exact beq_eq_false_iff_ne.mpr (Ne.symm hne)
    simp [hcond]
    exact fun hx => absurd (hrid.symm.trans hx).symm hne

/-- With pairwise distinct keys, a point lookup of a member row returns
exactly that row. -/
theorem find?_eq_some_of_mem_nodup {α β : Type} [DecidableEq β]
    (key : α → β) (l : List α) (h : (l.map key).Nodup) (a : α) (ha : a ∈ l) :
    l.find? (fun x => key x == key a) = some a := by
  induction l with
  | nil => cases ha
  | cons b t ih =>
    rw [List.map_cons, List.nodup_cons] at h
    rcases List.mem_cons.mp ha with rfl | hat
    · exact List.find?_cons_of_pos _ (by simp)
    · have hne : key b ≠ key a := fun he =>
        h.1 (he ▸ List.mem_map_of_mem key hat)
      rw [@List.find?_cons_of_neg _ (fun x => key x == key a) b t
          (by simp [hne])]
      exact ih h.2 hat

/-- Two row lists that agree through a key projection give find? results
that agree through the projection, for any predicate reading only the
projection. -/
theorem find?_map_congr {α β : Type} (g : α → β) (q : β → Bool) :
    ∀ (l₁ l₂ : List α), l₁.map g = l₂.map g →
      (l₁.find? (fun a => q (g a))).map g =
      (l₂.find? (fun a => q (g a))).map g := by
  intro l₁
  induction l₁ with
  | nil =>
    intro l₂ h
    cases l₂ with
    | nil => rfl
    | cons b t => simp at h
  | cons a t ih =>
    intro l₂ h
    cases l₂ with
    | nil => simp at h
    | cons b t₂ =>
      simp only [List.map_cons, List.cons.injEq] at h
      by_cases hq : q (g a) = true
      · rw [@List.find?_cons_of_pos _ (fun x => q (g x)) a t hq,
          @List.find?_cons_of_pos _ (fun x => q (g x)) b t₂
            (by show q (g b) = true
                rw [← h.1]; exact hq)]
        simp [h.1]
      · rw [@List.find?_cons_of_neg _ (fun x => q (g x)) a t hq,
          @List.find?_cons_of_neg _ (fun x => q (g x)) b t₂
            (by show ¬ q (g b) = true
                rw [← h.1]; exact hq)]
        exact ih t₂ h.2

/-- A keyed UPDATE whose update function preserves the identity columns
preserves the identity-column projection of the table. -/
theorem map_idAwb_updateWhereId (rows : List Shipment) (sid : Nat)
    (u : Shipment → Shipment) (hu : ∀ s, idAwb (u s) = idAwb s) :
    (updateWhereId rows sid u).map idAwb = rows.map idAwb := by
  unfold updateWhereId
  rw [List.map_map]
  refine List.map_congr_left (fun a _ => ?_)
  show idAwb (if a.shipment_id == sid then u a else a) = idAwb a
  split
  · exact hu a
  · rfl

/-- An Apply never inserts, deletes or re-keys a shipment row. -/
theorem map_idAwb_createTrackingEvent (db : DBState) (sid : Nat)
    (d : EventData) :
    ((createTrackingEvent db sid d).2).shipments.map idAwb =
    db.shipments.map idAwb := by
  unfold createTrackingEvent
  cases hf : findById db sid with
  | none => rfl
  | some sh =>
    by_cases hdup : checkDuplicate db.events sid d.event_code d.event_datetime
        d.external_event_id = true
    · simp only [hdup, if_true]
    · simp only [hdup, if_false]
      show (updateWhereId db.shipments sid
          (updateShipmentStatus (mkTrackingEvent db sid d))).map idAwb = _
      exact map_idAwb_updateWhereId db.shipments sid
        (updateShipmentStatus (mkTrackingEvent db sid d))
        (fun s => idAwb_updateShipmentStatus _ s)

/-- An Apply targeting one shipment id leaves the point lookup of any
other shipment id unchanged. -/
theorem findById_createTrackingEvent_ne (db : DBState) (rid : Nat)
    (d : EventData) (sid : Nat) (hne : rid ≠ sid) :
    findById ((createTrackingEvent db rid d).2) sid = findById db sid := by
  unfold createTrackingEvent
  cases hf : findById db rid with
  | none => rfl
  | some sh =>
    by_cases hdup : checkDuplicate db.events rid d.event_code d.event_datetime
        d.external_event_id = true
    · simp only [hdup, if_true]
    · simp only [hdup, if_false]
      show (updateWhereId db.shipments rid
          (updateShipmentStatus (mkTrackingEvent db rid d))).find?
          (fun s => s.shipment_id == sid) = db.shipments.find?
          (fun s => s.shipment_id == sid)
      exact find?_updateWhereId_ne db.shipments rid
        (updateShipmentStatus (mkTrackingEvent db rid d))
        (fun s => shipment_id_updateShipmentStatus _ s) sid hne

/-- updateTrackingConfig preserves the identity-column projection. -/
theorem map_idAwb_updateTrackingConfig (db : DBState) (sid : Nat)
    (en : Bool) (fr : Int) :
    (updateTrackingConfig db sid en fr).shipments.map idAwb =
    db.shipments.map idAwb := by
  show (updateWhereId db.shipments sid
      (fun s => { s with tracking_enabled := en
                         tracking_frequency_minutes := fr })).map idAwb = _
  exact map_idAwb_updateWhereId db.shipments sid
    (fun s => { s with tracking_enabled := en
                       tracking_frequency_minutes := fr })
    (fun _ => rfl)

/-- updateTrackingConfig on one shipment id leaves the point lookup of any
other shipment id unchanged. -/
theorem findById_updateTrackingConfig_ne (db : DBState) (rid : Nat)
    (en : Bool) (fr : Int) (sid : Nat) (hne : rid ≠ sid) :
    findById (updateTrackingConfig db rid en fr) sid = findById db sid := by
  show (updateWhereId db.shipments rid
      (fun s => { s with tracking_enabled := en
                         tracking_frequency_minutes := fr })).find?
      (fun s => s.shipment_id == sid) = db.shipments.find?
      (fun s => s.shipment_id == sid)
  exact find?_updateWhereId_ne db.shipments rid
    (fun s => { s with tracking_enabled := en
                       tracking_frequency_minutes := fr })
    (fun _ => rfl) sid hne

/-- Membership in the scheduler selection implies membership in the table
and the due predicate. -/
theorem mem_getShipmentsForUpdate (now : Int) (db : DBState) (s : Shipment)
    (h : s ∈ getShipmentsForUpdate now db) :
    s ∈ db.shipments ∧ dueForUpdate now s = true := by
  unfold getShipmentsForUpdate at h
  have h1 := List.mem_of_mem_take h
  have h2 := (List.mergeSort_perm (db.shipments.filter (dueForUpdate now))
    (fun a b => lastTrackedLe a.last_tracked_at b.last_tracked_at)).mem_iff.mp h1
  exact ⟨(List.mem_filter.mp h2).1, (List.mem_filter.mp h2).2⟩

/-- A due shipment has a non-terminal status. -/
theorem due_status_not_terminal (now : Int) (s : Shipment)
    (h : dueForUpdate now s = true) :
    s.current_status ≠ some "DELIVERED" ∧
    s.current_status ≠ some "CANCELLED" := by
  unfold dueForUpdate at h
  constructor
  · intro hc
    rw [hc] at h
    simp at h
  · intro hc
    rw [hc] at h
    simp at h

/-- Counting one message kind in a delivery fan-out to a client list. -/
theorem count_map_pair (l : List Nat) (m : MsgKind) (c : Nat) (m' : MsgKind) :
    ((l.map (fun x => (x, m))).count (c, m')) =
    if m' = m then l.count c else 0 := by
  by_cases hm : m' = m
  · subst hm
    rw [if_pos rfl]
    induction l with
    | nil => simp
    | cons a t ih => simp [List.count_cons, ih, Prod.ext_iff]
  · rw [if_neg hm]
    induction l with
    | nil => simp
    | cons a t ih =>
      simp [List.count_cons, ih, Prod.ext_iff, hm]

/-- Claim C1, counterexample: applying the same two events in two orders
yields different terminal derived states, and applying a DELIVERED event
followed by an older FLIGHT_DEPARTED event leaves current_status =
DEPARTED, not DELIVERED; the ingestion pipeline is NOT order independent
and current_status is not the mapping of the greatest
(event_datetime, created_at) event. -/
theorem out_of_order_apply_changes_terminal_status :
    ((findById (applyAll wDb0 [(1, wData "DELIVERED" 200000 "HKG"),
        (1, wData "FLIGHT_DEPARTED" 100000 "SIN")]) 1).map
      (fun s => s.current_status) = some (some "DEPARTED"))
    ∧ ((findById (applyAll wDb0 [(1, wData "FLIGHT_DEPARTED" 100000 "SIN"),
        (1, wData "DELIVERED" 200000 "HKG")]) 1).map
      (fun s => s.current_status) = some (some "DELIVERED")) := by
  constructor <;> rfl

/-- Claim C1 (amended): after a successful Apply of an event that is a
milestone or has category STATUS_UPDATE, current_status equals the status
mapping of THAT event's code, whatever its event_datetime; the terminal
state therefore depends on apply order, last applied wins. -/
theorem current_status_is_last_applied_mapping (db : DBState) (sid : Nat)
    (d : EventData) (e : TrackingEvent) (db' : DBState)
    (h : createTrackingEvent db sid d = (ApplyOutcome.created e, db'))
    (heff : (d.is_milestone ||
      d.event_category.getD "STATUS_UPDATE" == "STATUS_UPDATE") = true) :
    ∃ s', findById db' sid = some s' ∧
      s'.current_status = statusMapping d.event_code := by
  unfold createTrackingEvent at h
  cases hf : findById db sid with
  | none => rw [hf] at h; simp at h
  | some sh =>
    rw [hf] at h
    by_cases hdup : checkDuplicate db.events sid d.event_code d.event_datetime
        d.external_event_id = true
    · rw [if_pos hdup] at h; simp at h
    · rw [if_neg hdup] at h
      injection h with h1 h2
      subst h2
      refine ⟨updateShipmentStatus (mkTrackingEvent db sid d) sh, ?_, ?_⟩
      · show (updateWhereId db.shipments sid
            (updateShipmentStatus (mkTrackingEvent db sid d))).find?
            (fun s => s.shipment_id == sid) = _
        rw [find?_updateWhereId db.shipments sid
            (updateShipmentStatus (mkTrackingEvent db sid d))
            (fun s => shipment_id_updateShipmentStatus _ s) sid]
        have hfind : db.shipments.find? (fun s => s.shipment_id == sid)
            = some sh := hf
        rw [hfind]
        show some (if sh.shipment_id == sid then
            updateShipmentStatus (mkTrackingEvent db sid d) sh else sh) = _
        rw [if_pos (List.find?_some hfind)]
      · show (updateShipmentStatus (mkTrackingEvent db sid d) sh).current_status
            = statusMapping d.event_code
        unfold updateShipmentStatus
        rw [if_pos (show ((mkTrackingEvent db sid d).is_milestone ||
            (mkTrackingEvent db sid d).event_category == "STATUS_UPDATE")
            = true from heff)]
        split <;> rfl

/-- Witness for the amended C1 theorem at a concrete Apply. -/
theorem current_status_is_last_applied_mapping_witness :
    ∃ s', findById ((createTrackingEvent wDb0 1
        (wData "FLIGHT_DEPARTED" 100000 "SIN")).2) 1 = some s' ∧
      s'.current_status = statusMapping "FLIGHT_DEPARTED" :=
  current_status_is_last_applied_mapping wDb0 1
    (wData "FLIGHT_DEPARTED" 100000 "SIN")
    (mkTrackingEvent wDb0 1 (wData "FLIGHT_DEPARTED" 100000 "SIN"))
    ((createTrackingEvent wDb0 1 (wData "FLIGHT_DEPARTED" 100000 "SIN")).2)
    (by decide) (by decide)

/-- Claim C2: an Apply that duplicates an already persisted event (same
shipment, same code, within 300 s, external ids both absent or both equal)
yields the non-fatal duplicate outcome and leaves the database, hence the
event count and the derived shipment state, unchanged. In the source the
outcome is the thrown Duplicate-tracking-event error, raised before any
write and absorbed by the pipeline's callers. -/
theorem duplicate_apply_no_side_effects (db : DBState) (sid : Nat)
    (d : EventData) (hship : (findById db sid).isSome = true)
    (hdup : ∃ ev ∈ db.events, ev.shipment_id = sid ∧
      ev.event_code = d.event_code ∧
      (ev.event_datetime - d.event_datetime).natAbs < 300 ∧
      ((d.external_event_id = none ∧ ev.external_event_id = none) ∨
       (d.external_event_id.isSome = true ∧
        ev.external_event_id = d.external_event_id))) :
    createTrackingEvent db sid d = (ApplyOutcome.duplicate, db) := by
  obtain ⟨ev, hmem, hsid, hcode, htime, hext⟩ := hdup
  have hchk : checkDuplicate db.events sid d.event_code d.event_datetime
      d.external_event_id = true := by
    unfold checkDuplicate
    rw [List.any_eq_true]
    refine ⟨ev, hmem, ?_⟩
    simp only [Bool.and_eq_true, beq_iff_eq, decide_eq_true_eq]
    refine ⟨⟨⟨hsid, hcode⟩, htime⟩, ?_⟩
    rcases hext with ⟨hd, he⟩ | ⟨hd, he⟩
    · rw [hd]
    · cases hx : d.external_event_id with
      | none => rfl
      | some x =>
        rw [hx] at he
        simp [he]
  unfold createTrackingEvent
  cases hf : findById db sid with
  | none => rw [hf] at hship; simp at hship
  | some sh => rw [if_pos hchk]

/-- Witness for the C2 theorem: seed scenario S2, a CARGO_COLLECTED
candidate 299 s after the stored event with no external id on either
side. -/
theorem duplicate_apply_no_side_effects_witness :
    createTrackingEvent wDb2 1 wDup = (ApplyOutcome.duplicate, wDb2) :=
  duplicate_apply_no_side_effects wDb2 1 wDup (by decide)
    ⟨wEv1, by decide, by decide, by decide, by decide,
      Or.inl ⟨by decide, by decide⟩⟩

/-- Claim C3, counterexample: a candidate WITHOUT an external id IS
counted by checkDuplicate as a duplicate of a stored event that carries
one, though the claim's predicate says it is not. -/
theorem checkDuplicate_external_id_asymmetry :
    checkDuplicate [wEvX] 1 "CARGO_COLLECTED" 1000 none = true ∧
    specDuplicate [wEvX] 1 "CARGO_COLLECTED" 1000 none = false := by
  decide

/-- Claim C3 (amended): checkDuplicate holds exactly when some persisted
event has the same shipment, the same code, an event_datetime within
300 s, and, ONLY IF the candidate carries an external id, the same
external id; a candidate without an external id matches regardless of the
stored event's external id. -/
theorem checkDuplicate_characterization (events : List TrackingEvent)
    (sid : Nat) (code : String) (t : Int) (ext : Option String) :
    checkDuplicate events sid code t ext = true ↔
    ∃ ev ∈ events, ev.shipment_id = sid ∧ ev.event_code = code ∧
      (ev.event_datetime - t).natAbs < 300 ∧
      (∀ x, ext = some x → ev.external_event_id = some x) := by
  unfold checkDuplicate
  rw [List.any_eq_true]
  constructor
  · rintro ⟨ev, hmem, hp⟩
    simp only [Bool.and_eq_true, beq_iff_eq, decide_eq_true_eq] at hp
    refine ⟨ev, hmem, hp.1.1.1, hp.1.1.2, hp.1.2, ?_⟩
    intro x hx
    have hm := hp.2
    subst hx
    simpa using hm
  · rintro ⟨ev, hmem, h1, h2, h3, h4⟩
    refine ⟨ev, hmem, ?_⟩
    simp only [Bool.and_eq_true, beq_iff_eq, decide_eq_true_eq]
    refine ⟨⟨⟨h1, h2⟩, h3⟩, ?_⟩
    cases hx : ext with
    | none => rfl
    | some x => simp [h4 x hx]

/-- Claim C6, counterexample: a LOCATION_UPDATE event matches a
subscription that asks only for location updates under the claimed
predicate, yet the code dispatches no notification for it: the dispatch is
gated on milestone/exception/critical and the SQL filter has no
location_updates clause. -/
theorem location_updates_subscription_never_notified :
    notificationsDispatched [wSubLoc] wEvLoc = [] ∧
    wEvLoc.event_category = "LOCATION_UPDATE" ∧
    wSubLoc.shipment_id = wEvLoc.shipment_id ∧
    wSubLoc.is_active = true ∧
    specSubscriptionMatches wSubLoc wEvLoc = true := by
  decide

/-- Claim C6 (amended): a notification is dispatched to a subscription iff
the event is a milestone, an exception or critical, AND the subscription is
an active one of the event's shipment satisfying all_events, or milestone
notifications for a milestone event, or exception notifications for an
exception event; the location_updates flag is never consulted. -/
theorem notification_dispatch_characterization
    (subs : List TrackingSubscription) (e : TrackingEvent)
    (sub : TrackingSubscription) :
    sub ∈ notificationsDispatched subs e ↔
    (sub ∈ subs ∧ (e.is_milestone || e.is_exception || e.is_critical) = true ∧
     sub.shipment_id = e.shipment_id ∧ sub.is_active = true ∧
     ((sub.milestone_notifications && e.is_milestone) ||
      (sub.exception_notifications && e.is_exception) ||
      sub.all_events) = true) := by
  unfold notificationsDispatched sendTrackingNotifications
  by_cases hg : (e.is_milestone || e.is_exception || e.is_critical) = true
  · rw [if_pos hg]
    constructor
    · intro h
      have h' := List.mem_filter.mp h
      have hb := h'.2
      simp only [Bool.and_eq_true, beq_iff_eq] at hb
      exact ⟨h'.1, hg, hb.1.1, hb.1.2, hb.2⟩
    · rintro ⟨hmem, _, h1, h2, h3⟩
      exact List.mem_filter.mpr ⟨hmem, by
        simp only [Bool.and_eq_true, beq_iff_eq]
        exact ⟨⟨h1, h2⟩, h3⟩⟩
  · rw [if_neg hg]
    constructor
    · intro h
      exact absurd h (List.not_mem_nil sub)
    · rintro ⟨_, hgate, _⟩
      exact absurd hgate hg

/-- Claim C7, counterexample: for a milestone event, a client subscribed
only to the owning customer's topic receives no tracking_event and no
critical_update; it receives one customer_tracking_update, while the
shipment-topic client receives tracking_event plus critical_update. -/
theorem customer_topic_client_message_kinds :
    ((broadcastTrackingEvent
        [(RoomKey.shipment (some 1), [10]), (RoomKey.customer 1, [20])]
        wEvArr wShip).count (20, MsgKind.tracking_event) = 0)
    ∧ ((broadcastTrackingEvent
        [(RoomKey.shipment (some 1), [10]), (RoomKey.customer 1, [20])]
        wEvArr wShip).count (20, MsgKind.critical_update) = 0)
    ∧ ((broadcastTrackingEvent
        [(RoomKey.shipment (some 1), [10]), (RoomKey.customer 1, [20])]
        wEvArr wShip).count (20, MsgKind.customer_tracking_update) = 1)
    ∧ ((broadcastTrackingEvent
        [(RoomKey.shipment (some 1), [10]), (RoomKey.customer 1, [20])]
        wEvArr wShip).count (10, MsgKind.tracking_event) = 1)
    ∧ ((broadcastTrackingEvent
        [(RoomKey.shipment (some 1), [10]), (RoomKey.customer 1, [20])]
        wEvArr wShip).count (10, MsgKind.critical_update) = 1)
    ∧ wEvArr.is_milestone = true ∧ wShip.customer_id = 1 := by
  decide

/-- Claim C7 (amended): per published event, each client of the shipment
topic receives one tracking_event (and one critical_update exactly when
the event is critical, an exception or a milestone); each client of the
customer topic receives one customer_tracking_update and nothing else, in
particular no tracking_event and no critical_update. -/
theorem broadcastTrackingEvent_delivery_counts (rooms : Rooms)
    (e : TrackingEvent) (sh : Shipment) (c : Nat) :
    ((broadcastTrackingEvent rooms e sh).count (c, MsgKind.tracking_event)
      = (roomClients rooms (RoomKey.shipment (some e.shipment_id))).count c)
    ∧ ((broadcastTrackingEvent rooms e sh).count
        (c, MsgKind.customer_tracking_update)
      = (roomClients rooms (RoomKey.customer sh.customer_id)).count c)
    ∧ ((broadcastTrackingEvent rooms e sh).count (c, MsgKind.critical_update)
      = if (e.is_critical || e.is_exception || e.is_milestone) = true
        then (roomClients rooms (RoomKey.shipment (some e.shipment_id))).count c
        else 0) := by
  unfold broadcastTrackingEvent
  by_cases hc : (e.is_critical || e.is_exception || e.is_milestone) = true
  · rw [if_pos hc]
    refine ⟨?_, ?_, ?_⟩ <;>
      simp [List.count_append, count_map_pair, hc]
  · rw [if_neg hc]
    refine ⟨?_, ?_, ?_⟩ <;>
      simp [List.count_append, count_map_pair, hc]

/-- Claim C9, counterexample: after applying DELIVERED at t = 200000 and
then a newer IN_TRANSIT at t = 300000, the winning event (greatest
(event_datetime, created_at)) maps to IN_TRANSIT, yet delivery_date is
still set (to 200000): delivery_date being set is NOT equivalent to the
winning event mapping to DELIVERED. -/
theorem delivery_date_persists_after_later_event :
    ((findById (applyAll wDb0 [(1, wData "DELIVERED" 200000 "HKG"),
        (1, wData "IN_TRANSIT" 300000 "PVG")]) 1).map
      (fun s => s.current_status) = some (some "IN_TRANSIT"))
    ∧ ((findById (applyAll wDb0 [(1, wData "DELIVERED" 200000 "HKG"),
        (1, wData "IN_TRANSIT" 300000 "PVG")]) 1).map
      (fun s => s.delivery_date) = some (some 200000)) := by
  constructor <;> rfl

/-- A successful Apply rewrites exactly the target shipment row through
updateShipmentStatus. -/
theorem created_apply_updates_row (db : DBState) (sid : Nat) (d : EventData)
    (e : TrackingEvent) (db' : DBState)
    (h : createTrackingEvent db sid d = (ApplyOutcome.created e, db')) :
    ∃ sh, findById db sid = some sh ∧
      findById db' sid
        = some (updateShipmentStatus (mkTrackingEvent db sid d) sh) := by
  unfold createTrackingEvent at h
  cases hf : findById db sid with
  | none => rw [hf] at h; simp at h
  | some sh =>
    rw [hf] at h
    by_cases hdup : checkDuplicate db.events sid d.event_code d.event_datetime
        d.external_event_id = true
    · rw [if_pos hdup] at h; simp at h
    · rw [if_neg hdup] at h
      injection h with h1 h2
      subst h2
      refine ⟨sh, rfl, ?_⟩
      show (updateWhereId db.shipments sid
          (updateShipmentStatus (mkTrackingEvent db sid d))).find?
          (fun s => s.shipment_id == sid) = _
      rw [find?_updateWhereId db.shipments sid
          (updateShipmentStatus (mkTrackingEvent db sid d))
          (fun s => shipment_id_updateShipmentStatus _ s) sid]
      have hfind : db.shipments.find? (fun s => s.shipment_id == sid)
          = some sh := hf
      rw [hfind]
      show some (if sh.shipment_id == sid then
          updateShipmentStatus (mkTrackingEvent db sid d) sh else sh) = _
      rw [if_pos (List.find?_some hfind)]

/-- Claim C9 (amended): every successfully applied milestone/STATUS_UPDATE
event with code DELIVERED writes delivery_date to its event_datetime, and
an applied event with any other code leaves delivery_date unchanged;
delivery_date therefore records the last applied DELIVERED event and is
never cleared, independent of which event wins by
(event_datetime, created_at). -/
theorem delivery_date_set_by_each_delivered_apply (db : DBState) (sid : Nat)
    (d : EventData) (e : TrackingEvent) (db' : DBState)
    (h : createTrackingEvent db sid d = (ApplyOutcome.created e, db')) :
    ((d.event_code = "DELIVERED" ∧ (d.is_milestone ||
        d.event_category.getD "STATUS_UPDATE" == "STATUS_UPDATE") = true) →
      (findById db' sid).map (fun s => s.delivery_date)
        = some (some d.event_datetime))
    ∧ (d.event_code ≠ "DELIVERED" →
      (findById db' sid).map (fun s => s.delivery_date)
        = (findById db sid).map (fun s => s.delivery_date)) := by
  obtain ⟨sh, hsh, hsh'⟩ := created_apply_updates_row db sid d e db' h
  constructor
  · rintro ⟨hcode, heff⟩
    rw [hsh']
    have hb : ((mkTrackingEvent db sid d).event_code == "DELIVERED") = true := by
      show (d.event_code == "DELIVERED") = true
      simp [hcode]
    have hval : (updateShipmentStatus (mkTrackingEvent db sid d) sh).delivery_date
        = some d.event_datetime := by
      unfold updateShipmentStatus
      rw [if_pos (show ((mkTrackingEvent db sid d).is_milestone ||
          (mkTrackingEvent db sid d).event_category == "STATUS_UPDATE")
          = true from heff)]
      rw [if_pos hb]
      rfl
    simp [hval]
  · intro hne
    rw [hsh', hsh]
    have hb : ((mkTrackingEvent db sid d).event_code == "DELIVERED") = false := by
      show (d.event_code == "DELIVERED") = false
      exact beq_eq_false_iff_ne.mpr hne
    have hval : (updateShipmentStatus (mkTrackingEvent db sid d) sh).delivery_date
        = sh.delivery_date := by
      unfold updateShipmentStatus
      split
      · rw [if_neg (by simp [hb])]
      · rfl
    simp [hval]

/-- Witness for the amended C9 theorem: a concrete DELIVERED Apply writes
delivery_date = 200000. -/
theorem delivery_date_set_by_each_delivered_apply_witness :
    (findById ((createTrackingEvent wDb0 1
        (wData "DELIVERED" 200000 "HKG")).2) 1).map
      (fun s => s.delivery_date) = some (some 200000) :=
  (delivery_date_set_by_each_delivered_apply wDb0 1
    (wData "DELIVERED" 200000 "HKG")
    (mkTrackingEvent wDb0 1 (wData "DELIVERED" 200000 "HKG"))
    ((createTrackingEvent wDb0 1 (wData "DELIVERED" 200000 "HKG")).2)
    (by decide)).1 ⟨rfl, by decide⟩

/-- Claim C10: TrackingEvent.toJSON includes the coordinates object iff
both longitude and latitude are present and nonzero (so an equator or
prime-meridian coordinate of 0 is dropped), and omits environmental_data
exactly when temperature_celsius is absent or 0 and humidity_percent is
absent or 0. -/
theorem toJSON_zero_coordinate_omission (e : TrackingEvent) :
    (coordinatesIncluded e = true ↔
      ((∃ x, e.longitude = some x ∧ x ≠ 0) ∧
       (∃ y, e.latitude = some y ∧ y ≠ 0)))
    ∧ (environmentalDataIncluded e = false ↔
      ((e.temperature_celsius = none ∨ e.temperature_celsius = some 0) ∧
       (e.humidity_percent = none ∨ e.humidity_percent = some 0))) := by
  constructor
  · unfold coordinatesIncluded numTruthy
    cases e.longitude <;> cases e.latitude <;> simp
  · unfold environmentalDataIncluded numTruthy
    cases e.temperature_celsius <;> cases e.humidity_percent <;> simp

/-- Claim C8, counterexample: a shipment whose last_tracked_at is exactly
tracking_frequency_minutes old satisfies the claimed due condition
(overdue by AT LEAST the frequency) but the SQL comparison is strict, so
the scheduler does not select it. -/
theorem boundary_due_shipment_not_selected :
    specDueForUpdate 1000000 wShipBoundary = true ∧
    wShipBoundary ∈ (DBState.mk [wShipBoundary] [] 0).shipments ∧
    getShipmentsForUpdate 1000000 (DBState.mk [wShipBoundary] [] 0) = [] := by
  refine ⟨by decide, by decide, ?_⟩
  unfold getShipmentsForUpdate
  have hf : (DBState.mk [wShipBoundary] [] 0).shipments.filter
      (dueForUpdate 1000000) = [] := by decide
  rw [hf, List.mergeSort_nil, List.take_nil]

/-- Claim C8 (amended): the scheduler selection contains only rows that
are tracking-enabled with a non-null, non-terminal current_status and are
unpolled or overdue STRICTLY more than tracking_frequency_minutes; it
holds at most 100 rows; and whenever at most 100 rows qualify it contains
every qualifying row. -/
theorem getShipmentsForUpdate_characterization (now : Int) (db : DBState)
    (s : Shipment) :
    (s ∈ getShipmentsForUpdate now db →
      s ∈ db.shipments ∧ dueForUpdate now s = true)
    ∧ (getShipmentsForUpdate now db).length ≤ 100
    ∧ ((db.shipments.filter (dueForUpdate now)).length ≤ 100 →
        s ∈ db.shipments → dueForUpdate now s = true →
        s ∈ getShipmentsForUpdate now db) := by
  refine ⟨mem_getShipmentsForUpdate now db s, ?_, ?_⟩
  · unfold getShipmentsForUpdate
    rw [List.length_take]
    exact Nat.min_le_left _ _
  · intro hlen hmem hdue
    unfold getShipmentsForUpdate
    have hperm := List.mergeSort_perm (db.shipments.filter (dueForUpdate now))
      (fun a b => lastTrackedLe a.last_tracked_at b.last_tracked_at)
    have hlen' : ((db.shipments.filter (dueForUpdate now)).mergeSort
        (fun a b => lastTrackedLe a.last_tracked_at b.last_tracked_at)).length
        ≤ 100 := by
      rw [hperm.length_eq]
      exact hlen
    rw [List.take_of_length_le hlen']
    exact hperm.mem_iff.mpr (List.mem_filter.mpr ⟨hmem, hdue⟩)

/-- Witness for the amended C8 theorem: a never-polled live shipment is
selected. -/
theorem getShipmentsForUpdate_characterization_witness :
    wShip ∈ getShipmentsForUpdate 1000000 wDb0 :=
  (getShipmentsForUpdate_characterization 1000000 wDb0 wShip).2.2
    (by decide) (by decide) (by decide)

/-- Claim C5: the code contradicts the access-isolation property. A
client authenticated with customer id 2 subscribes by shipment_id to
shipment 1, which belongs to customer 1: handleShipmentSubscription runs
its customer check only in the AWB-lookup branch, so the call succeeds,
the client joins the shipment:1 topic, and the next
broadcastTrackingEvent delivers shipment 1's tracking_event to it. -/
theorem shipment_id_subscription_bypasses_access_check :
    wShip.customer_id = 1 ∧
    (handleShipmentSubscription wDb0 [] 7
        (ClientInfo.mk true (some 2)) (SubscribeData.mk (some 1) none)
      = Except.ok ([(RoomKey.shipment (some 1), [7])], some 1)) ∧
    ((broadcastTrackingEvent [(RoomKey.shipment (some 1), [7])] wEvArr
        wShip).count (7, MsgKind.tracking_event) = 1) := by
  refine ⟨rfl, rfl, ?_⟩
  rfl

/-- Applying any list of fetched events to one shipment id preserves the
identity-column projection of the table and every other shipment's row. -/
theorem foldl_create_preserves (rid sid : Nat) (hne : rid ≠ sid)
    (db : DBState) (s : Shipment) :
    ∀ (fetched : List EventData) (acc : DBState),
      acc.shipments.map idAwb = db.shipments.map idAwb →
      findById acc sid = some s →
      ((fetched.foldl (fun a d => (createTrackingEvent a rid d).2) acc).shipments.map idAwb
          = db.shipments.map idAwb
        ∧ findById (fetched.foldl (fun a d => (createTrackingEvent a rid d).2) acc) sid
          = some s) := by
  intro fetched
  induction fetched with
  | nil => intro acc h1 h2; exact ⟨h1, h2⟩
  | cons d t ih =>
    intro acc h1 h2
    exact ih ((createTrackingEvent acc rid d).2)
      (by rw [map_idAwb_createTrackingEvent]; exact h1)
      (by rw [findById_createTrackingEvent_ne acc rid d sid hne]; exact h2)

/-- One external refresh of a shipment whose id differs from sid leaves
the identity-column projection and sid's row unchanged. -/
theorem updateTrackingFromExternal_preserves (db acc : DBState) (sid : Nat)
    (s : Shipment) (awb : String) (fetched : List EventData)
    (h1 : acc.shipments.map idAwb = db.shipments.map idAwb)
    (h2 : findById acc sid = some s)
    (hawb : ∀ r, findByAwb db awb = some r → r.shipment_id ≠ sid) :
    (updateTrackingFromExternal acc awb fetched).shipments.map idAwb
      = db.shipments.map idAwb
    ∧ findById (updateTrackingFromExternal acc awb fetched) sid = some s := by
  cases hfa : findByAwb acc awb with
  | none =>
    have hred : updateTrackingFromExternal acc awb fetched = acc := by
      unfold updateTrackingFromExternal
      rw [hfa]
    rw [hred]
    exact ⟨h1, h2⟩
  | some sh =>
    have hmap : (findByAwb acc awb).map idAwb = (findByAwb db awb).map idAwb := by
      unfold findByAwb
      exact find?_map_congr idAwb (fun p => p.2 == awb)
        acc.shipments db.shipments h1
    rw [hfa] at hmap
    cases hfd : findByAwb db awb with
    | none => rw [hfd] at hmap; simp at hmap
    | some r =>
      rw [hfd] at hmap
      have hiaw : idAwb sh = idAwb r := by simpa using hmap
      have hne : sh.shipment_id ≠ sid := by
        have hsr : sh.shipment_id = r.shipment_id := congrArg Prod.fst hiaw
        rw [hsr]
        exact hawb r hfd
      have hred : updateTrackingFromExternal acc awb fetched
          = if (!sh.tracking_enabled) = true then acc
            else updateTrackingConfig
              (fetched.foldl (fun a d => (createTrackingEvent a sh.shipment_id d).2) acc)
              sh.shipment_id sh.tracking_enabled sh.tracking_frequency_minutes := by
        unfold updateTrackingFromExternal
        rw [hfa]
      rw [hred]
      by_cases hen : (!sh.tracking_enabled) = true
      · rw [if_pos hen]
        exact ⟨h1, h2⟩
      · rw [if_neg hen]
        constructor
        · rw [map_idAwb_updateTrackingConfig]
          exact (foldl_create_preserves sh.shipment_id sid hne db s fetched acc h1 h2).1
        · rw [findById_updateTrackingConfig_ne _ _ _ _ _ hne]
          exact (foldl_create_preserves sh.shipment_id sid hne db s fetched acc h1 h2).2

/-- A whole sequence of refreshes of shipments whose AWB lookups in the
original table all resolve away from sid leaves sid's row unchanged. -/
theorem foldl_refresh_preserves (db : DBState) (sid : Nat) (s : Shipment)
    (fetch : String → List EventData) :
    ∀ (rs : List Shipment) (acc : DBState),
      (∀ r ∈ rs, ∀ r', findByAwb db r.awb_number = some r' →
        r'.shipment_id ≠ sid) →
      acc.shipments.map idAwb = db.shipments.map idAwb →
      findById acc sid = some s →
      findById (rs.foldl (fun a row =>
          updateTrackingFromExternal a row.awb_number (fetch row.awb_number)) acc)
        sid = some s := by
  intro rs
  induction rs with
  | nil => intro acc _ _ hf; exact hf
  | cons r t ih =>
    intro acc h hm hf
    have hstep := updateTrackingFromExternal_preserves db acc sid s
      r.awb_number (fetch r.awb_number) hm hf
      (fun r' hr' => h r (List.mem_cons_self r t) r' hr')
    exact ih (updateTrackingFromExternal acc r.awb_number (fetch r.awb_number))
      (fun x hx r' hr' => h x (List.mem_cons_of_mem r hx) r' hr')
      hstep.1 hstep.2

/-- Claim C4, counterexample: a CANCELLED, tracking-enabled shipment with
an active room subscription IS selected by the real-time periodic updater,
which skips only DELIVERED (and missing or tracking-disabled) shipments. -/
theorem cancelled_shipment_selected_by_periodic :
    wShipCancelled.current_status = some "CANCELLED" ∧
    wShipCancelled.tracking_enabled = true ∧
    1 ∈ processPeriodicUpdates [(RoomKey.shipment (some 1), [5])]
      (DBState.mk [wShipCancelled] [] 0) := by
  decide

/-- Claim C4 (amended): in a table with globally unique shipment ids and
AWBs, a shipment whose status is DELIVERED or CANCELLED is never selected
by the due-shipment selection, and a whole poll-scheduler tick leaves its
row, including last_tracked_at, unchanged; the real-time periodic updater
never selects it only when the status is DELIVERED (a CANCELLED shipment
can still be selected there, as the counterexample shows). -/
theorem terminal_shipment_scheduler_quiescence (now : Int) (db : DBState)
    (fetch : String → List EventData) (rooms : Rooms) (sid : Nat)
    (s : Shipment) (hfind : findById db sid = some s)
    (hterm : s.current_status = some "DELIVERED" ∨
      s.current_status = some "CANCELLED")
    (hids : (db.shipments.map (fun r => r.shipment_id)).Nodup)
    (hawbs : (db.shipments.map (fun r => r.awb_number)).Nodup) :
    sid ∉ (getShipmentsForUpdate now db).map (fun r => r.shipment_id)
    ∧ findById (processAutomaticUpdates now db fetch) sid = some s
    ∧ (s.current_status = some "DELIVERED" →
        sid ∉ processPeriodicUpdates rooms db) := by
  have hfind' : db.shipments.find? (fun x => x.shipment_id == sid)
      = some s := hfind
  have hsel : ∀ r ∈ getShipmentsForUpdate now db, r.shipment_id ≠ sid := by
    intro r hr hreq
    obtain ⟨hmem, hdue⟩ := mem_getShipmentsForUpdate now db r hr
    have hfr : db.shipments.find? (fun x => x.shipment_id == r.shipment_id)
        = some r :=
      find?_eq_some_of_mem_nodup (fun x : Shipment => x.shipment_id)
        db.shipments hids r hmem
    rw [hreq] at hfr
    have hrs : r = s := Option.some.inj (hfr.symm.trans hfind')
    rcases hterm with h | h
    · exact (due_status_not_terminal now r hdue).1 (by rw [hrs]; exact h)
    · exact (due_status_not_terminal now r hdue).2 (by rw [hrs]; exact h)
  refine ⟨?_, ?_, ?_⟩
  · intro hmem'
    rw [List.mem_map] at hmem'
    obtain ⟨r, hr, hid⟩ := hmem'
    exact hsel r hr hid
  · have hforall : ∀ r ∈ getShipmentsForUpdate now db, ∀ r',
        findByAwb db r.awb_number = some r' → r'.shipment_id ≠ sid := by
      intro r hr r' hr'
      obtain ⟨hmem, hdue⟩ := mem_getShipmentsForUpdate now db r hr
      have hfr : findByAwb db r.awb_number = some r :=
        find?_eq_some_of_mem_nodup (fun x : Shipment => x.awb_number)
          db.shipments hawbs r hmem
      have hrr : r' = r := Option.some.inj (hr'.symm.trans hfr)
      rw [hrr]
      exact hsel r hr
    exact foldl_refresh_preserves db sid s fetch
      (getShipmentsForUpdate now db) db hforall rfl hfind
  · intro hdel hmem
    unfold processPeriodicUpdates at hmem
    have hp := (List.mem_filter.mp hmem).2
    rw [hfind] at hp
    simp [hdel] at hp

/-- Witness for the amended C4 theorem on a concrete table holding one
DELIVERED and one due shipment. -/
theorem terminal_shipment_scheduler_quiescence_witness :
    1 ∉ (getShipmentsForUpdate 1000000 wDb4).map (fun r => r.shipment_id)
    ∧ findById (processAutomaticUpdates 1000000 wDb4
        (fun _ => [wData "IN_TRANSIT" 5000 "PVG"])) 1 = some wShipDelivered
    ∧ (wShipDelivered.current_status = some "DELIVERED" →
        1 ∉ processPeriodicUpdates [] wDb4) :=
  terminal_shipment_scheduler_quiescence 1000000 wDb4
    (fun _ => [wData "IN_TRANSIT" 5000 "PVG"]) [] 1 wShipDelivered
    (by decide) (Or.inl (by decide)) (by decide) (by decide)

end LogisticPortal
